import Mathlib

/-!
Verification development for the ShiftBot shift-swap coordinator
(`src/shift_bot.py`, version "ShiftBot 6.0").

The Python program is shallowly embedded: the sqlite tables become lists of
records carried in a `DB` value, the process-wide `PENDING` dictionary becomes
an association list carried in `BotState`, and each handler becomes a pure
function from a state and an inbound event to an `Outcome` (the successor
state together with the visible replies, or the state at the moment an
uncaught Python exception would escape the handler).
-/

namespace ShiftBot

/-- Python truthiness of an optional string (`if not org:` in the source):
`None` and the empty string are falsy. -/
def strFalsy : Option String → Bool
  | none => true
  | some s => s = ""

/-- Models `str.split` / `str.splitOn` with a one-character separator, on the
character list of the string: `"a|b" ↦ ["a","b"]`, `"" ↦ [""]`, `"|" ↦ ["",""]`. -/
def splitSepAux (sep : Char) : List Char → List (List Char)
  | [] => [[]]
  | c :: cs =>
    match splitSepAux sep cs with
    | [] => if c = sep then [[], []] else [[c]]
    | h :: t => if c = sep then [] :: h :: t else (c :: h) :: t

/-- String-level wrapper for `splitSepAux`. -/
def splitSep (sep : Char) (s : String) : List String :=
  (splitSepAux sep s.toList).map (fun l => String.mk l)

/-- Digit accumulator for `natOfDigits`. -/
def natOfDigitsAux : List Char → Nat → Option Nat
  | [], acc => some acc
  | c :: cs, acc =>
    if c.isDigit then natOfDigitsAux cs (acc * 10 + (c.toNat - 48)) else none

/-- Parses a nonempty all-digit character list as a natural number. -/
def natOfDigits : List Char → Option Nat
  | [] => none
  | c :: cs => natOfDigitsAux (c :: cs) 0

/-- Models Python `int(s)` on the strings the handlers receive: an optional
sign followed by decimal digits; anything else raises `ValueError`, which the
callers translate to the `none` case. -/
def parseIntStr (s : String) : Option Int :=
  match s.toList with
  | '-' :: cs => (natOfDigits cs).map (fun n => -(n : Int))
  | '+' :: cs => (natOfDigits cs).map (fun n => (n : Int))
  | cs => (natOfDigits cs).map (fun n => (n : Int))

/-- Gregorian leap-year rule, as `datetime` implements it. -/
def isLeapYear (y : Nat) : Bool :=
  (y % 4 = 0 && y % 100 ≠ 0) || y % 400 = 0

/-- Day count of a month, as `datetime` implements it. -/
def daysInMonth (y m : Nat) : Nat :=
  if m = 2 then (if isLeapYear y then 29 else 28)
  else if m = 4 ∨ m = 6 ∨ m = 9 ∨ m = 11 then 30
  else 31

/-- Models `datetime.strptime(s, "%Y-%m-%d")` succeeding: a four-digit year,
a one- or two-digit month and day, and a real calendar date.  Where the source
formats such a string and the parse would fail, the handler raises. -/
def isValidDateIso (s : String) : Bool :=
  match splitSep '-' s with
  | [ys, ms, ds] =>
    match natOfDigits ys.toList, natOfDigits ms.toList, natOfDigits ds.toList with
    | some y, some m, some d =>
      decide (ys.length = 4 ∧ ms.length ≤ 2 ∧ ds.length ≤ 2 ∧ 1 ≤ y ∧
        1 ≤ m ∧ m ≤ 12 ∧ 1 ≤ d ∧ d ≤ daysInMonth y m)
    | _, _, _ => false
  | _ => false

/-- Fixed org code `ORG_PDCNAFR = "PDCFRNA"`. -/
def ORG_PDCNAFR : String := "PDCFRNA"

/-- Fixed org code `ORG_PDBNAFR = "PDBFRNA"`. -/
def ORG_PDBNAFR : String := "PDBFRNA"

/-- The static per-org admin registry `ORG_ADMINS` of the source. -/
def ORG_ADMINS (org : String) : List Int :=
  if org = ORG_PDCNAFR then [455696266]
  else if org = ORG_PDBNAFR then [666837389]
  else []

/-- `is_admin_for_org(user_id, org)`: membership in the static admin set. -/
def is_admin_for_org (user_id : Int) (org : String) : Bool :=
  (ORG_ADMINS org).contains user_id

/-- A row of the sqlite `users` table (the columns the handlers read). -/
structure UserRow where
  user_id : Int
  username : String
  full_name : String
  org : Option String
  status : String
deriving DecidableEq, Repr

/-- A row of the sqlite `shifts` table.  `id` is the AUTOINCREMENT key;
`created_at` abstracts the `datetime('now')` text timestamp as a number that
the repository clock assigns at insertion. -/
structure ShiftRow where
  id : Nat
  chat_id : Int
  message_id : Int
  user_id : Option Int
  username : String
  date_iso : String
  caption : String
  photo_file_id : Option String
  org : Option String
  status : String
  created_at : Nat
deriving DecidableEq, Repr

/-- The durable store: both tables plus the id allocator and the clock that
stamps `created_at`. -/
structure DB where
  users : List UserRow
  shifts : List ShiftRow
  nextShiftId : Nat
  now : Nat
deriving DecidableEq, Repr

/-- `get_user_row(user_id)`: `SELECT user_id, org, status FROM users WHERE user_id=?`
(primary-key lookup). -/
def get_user_row (db : DB) (uid : Int) : Option (Int × Option String × String) :=
  match db.users.find? (fun r => decide (r.user_id = uid)) with
  | some r => some (r.user_id, r.org, r.status)
  | none => none

/-- `get_approved_org(user_id)`: the user's org when the row exists and its
status is `approved`, otherwise `None`. -/
def get_approved_org (db : DB) (uid : Int) : Option String :=
  match get_user_row db uid with
  | none => none
  | some (_, org, status) => if status = "approved" then org else none

/-- `has_open_on_date(user_id, date_iso)`: `SELECT 1 FROM shifts WHERE user_id=?
AND date_iso=? AND status='open' LIMIT 1` — an existence test.  A SQL equality
against a non-null parameter never matches a `NULL` column, hence the
`some`-comparison. -/
def has_open_on_date (db : DB) (user_id : Int) (date_iso : String) : Bool :=
  db.shifts.any (fun r =>
    decide (r.user_id = some user_id ∧ r.date_iso = date_iso ∧ r.status = "open"))

/-- The org-resolution step opening `save_shift_raw`: a falsy `org` argument
is replaced by `get_approved_org(user_id)` — but only when `user_id` itself is
truthy (not `None`, not `0`). -/
def resolve_org (db : DB) (user_id : Option Int) (org0 : Option String) :
    Option String :=
  if strFalsy org0 then
    match user_id with
    | some uid => if uid = 0 then org0 else get_approved_org db uid
    | none => org0
  else org0

/-- The row `save_shift_raw` inserts. -/
def mkShiftRow (db : DB) (chat_id message_id : Int) (user_id : Option Int)
    (username : Option String) (caption : String) (date_iso : String)
    (org1 : Option String) (file_id : Option String) : ShiftRow :=
  { id := db.nextShiftId
    chat_id := chat_id
    message_id := message_id
    user_id := user_id
    username := username.getD ""
    date_iso := date_iso
    caption := caption
    photo_file_id := file_id
    org := org1
    status := "open"
    created_at := db.now }

/-- `save_shift_raw(...)`: refuses (`-1`, no write) when `org` is falsy and
cannot be inferred via `get_approved_org(user_id)` (the inference is skipped
when `user_id` itself is falsy, i.e. `None` or `0`); otherwise inserts one row
with `status='open'` and returns its id. -/
def save_shift_raw (db : DB) (chat_id message_id : Int) (user_id : Option Int)
    (username : Option String) (caption : String) (date_iso : String)
    (org0 : Option String) (file_id : Option String) : Int × DB :=
  let org1 := resolve_org db user_id org0
  if strFalsy org1 then (-1, db)
  else
    ((db.nextShiftId : Int),
      { db with
          shifts := db.shifts ++
            [mkShiftRow db chat_id message_id user_id username caption date_iso
              org1 file_id]
          nextShiftId := db.nextShiftId + 1 })

example : (save_shift_raw ⟨[], [], 1, 0⟩ 5 6 none none "" "2025-01-01" none none).1 = -1 := by decide

example :
    (save_shift_raw ⟨[⟨7, "@u", "U", some "PDCFRNA", "approved"⟩], [], 1, 0⟩
      5 6 (some 7) (some "@u") "" "2025-01-01" none none).1 = 1 := by decide

/-- A Telegram user as the handlers see it: numeric id, optional username,
full name. -/
structure TgUser where
  id : Int
  username : Option String
  full_name : String
deriving DecidableEq, Repr

/-- An inbound media message (the fields `photo_or_doc_image_handler` and
`save_shift` read).  `file_id` is the already-extracted image file id
(`msg.photo[-1].file_id`, or the document's file id when its mime type starts
with `image/`), `none` when neither is present. -/
structure IncomingMsg where
  chat_id : Int
  chat_private : Bool
  message_id : Int
  from_user : Option TgUser
  caption : String
  file_id : Option String
deriving DecidableEq, Repr

/-- An inbound callback-button tap (the fields `button_handler` reads).
`message_id` is `query.message.message_id` when the originating message is
still attached to the query. -/
structure CallbackQuery where
  from_user : TgUser
  chat_private : Bool
  message_id : Option Int
  data : Option String
deriving DecidableEq, Repr

/-- One value of the process-wide `PENDING` dictionary: the correlation payload
stored under a calendar message id, holding everything needed to finish the
posting later. -/
structure PendingData where
  src_chat_id : Int
  src_msg_id : Int
  owner_id : Option Int
  owner_username : String
  caption : String
  file_id : Option String
deriving DecidableEq, Repr

/-- The process state: the durable store, the volatile `PENDING` dictionary
(keyed by calendar message id), and the platform's allocator for fresh
message ids (Telegram message ids in a chat are increasing, so a newly sent
calendar prompt never reuses a live key). -/
structure BotState where
  db : DB
  pending : List (Int × PendingData)
  nextMsgId : Int
deriving DecidableEq, Repr

/-- Dictionary lookup in `PENDING`. -/
def pendingLookup (p : List (Int × PendingData)) (k : Int) : Option PendingData :=
  match p.find? (fun e => decide (e.1 = k)) with
  | some e => some e.2
  | none => none

/-- Dictionary key removal in `PENDING`. -/
def pendingErase (p : List (Int × PendingData)) (k : Int) : List (Int × PendingData) :=
  p.filter (fun e => decide (e.1 ≠ k))

/-- `PENDING.pop(key, None)`: atomically remove and return the entry; the
`none` key (`query.message is None`) is never present. -/
def pendingPop (p : List (Int × PendingData)) (k? : Option Int) :
    Option PendingData × List (Int × PendingData) :=
  match k? with
  | none => (none, p)
  | some k =>
    match pendingLookup p k with
    | none => (none, p)
    | some v => (some v, pendingErase p k)

/-- `PENDING[key] = value`: store (overwriting any previous entry). -/
def pendingInsert (p : List (Int × PendingData)) (k : Int) (v : PendingData) :
    List (Int × PendingData) :=
  pendingErase p k ++ [(k, v)]

/-- The user-visible outcomes of one handler invocation, one constructor per
distinct message/action the source emits. -/
inductive Reply where
  | usernameRequired
  | notRegisteredGate
  | accessNotActive
  | navEdited
  | cannotRelink
  | duplicateOpen (date_iso : String)
  | notApprovedAnymore
  | orgInvalid
  | confirmSaved (date_iso : String)
  | searchBlocked
  | searchShown (rows : List ShiftRow)
  | invalidShiftId
  | shiftNotFound
  | noPermission
  | shiftClosed (date_iso : String)
  | contactInvalidId
  | contactNotFound
  | contactCrossOrgBlocked
  | contactNoUsername
  | contactInfo (handle : String)
  | invalidParams
  | notRegistered
  | noOrgPermission
  | opCompleted (action : String) (new_status : String) (target : Int)
  | calendarPrompt (cal_msg_id : Int)
  | uploadDeniedMissingOrg
deriving DecidableEq, Repr

/-- Result of an authorization gate: pass, block silently, or block with a
message. -/
inductive AuthCheck where
  | ok
  | blockedSilent
  | blockedReply (r : Reply)
deriving DecidableEq, Repr

/-- `require_username`: blocks (with instructions) any user without a Telegram
username; blocks silently when there is no user at all. -/
def require_username_check (u? : Option TgUser) : AuthCheck :=
  match u? with
  | none => .blockedSilent
  | some u => if strFalsy u.username then .blockedReply .usernameRequired else .ok

/-- `require_approved`: private chat only, username required, user row must
exist with status `approved`. -/
def require_approved_check (db : DB) (chat_private : Bool) (u? : Option TgUser) :
    AuthCheck :=
  if chat_private then
    match u? with
    | none => .blockedSilent
    | some u =>
      match require_username_check (some u) with
      | .ok =>
        match get_user_row db u.id with
        | none => .blockedReply .notRegisteredGate
        | some (_, _org, status) =>
          if status = "approved" then .ok else .blockedReply .accessNotActive
      | r => r
  else .blockedSilent

/-- The display name the source stores with a posting:
`f"@{username}"` when the sender has a username, the full name when they have
a falsy one, and `""` when there is no sender. -/
def owner_username_of (m : IncomingMsg) : String :=
  match m.from_user with
  | none => ""
  | some u =>
    match u.username with
    | some s => if s = "" then u.full_name else "@" ++ s
    | none => u.full_name

/-- `save_shift(msg, date_iso)`: derives the display name, file id and org of
the sender (`get_approved_org`) and delegates to `save_shift_raw`. -/
def save_shift (db : DB) (m : IncomingMsg) (date_iso : String) : Int × DB :=
  let org : Option String :=
    match m.from_user with
    | some u => get_approved_org db u.id
    | none => none
  save_shift_raw db m.chat_id m.message_id (m.from_user.map (fun u => u.id))
    (some (owner_username_of m)) m.caption date_iso org m.file_id

/-- Repository ordering relation for `ORDER BY created_at ASC`. -/
def createdLE (a b : ShiftRow) : Prop := a.created_at ≤ b.created_at

instance : DecidableRel createdLE := fun a b => Nat.decLe a.created_at b.created_at

instance : IsTotal ShiftRow createdLE :=
  ⟨fun a b => Nat.le_total a.created_at b.created_at⟩

instance : IsTrans ShiftRow createdLE :=
  ⟨fun _ _ _ hab hbc => Nat.le_trans hab hbc⟩

/-- The `show_shifts` query: open shifts of a date, optionally scoped to one
org, `ORDER BY created_at ASC`. -/
def listOpenByDate (shifts : List ShiftRow) (date_iso : String)
    (org? : Option String) : List ShiftRow :=
  let base : List ShiftRow :=
    match org? with
    | some o => shifts.filter (fun r =>
        decide (r.date_iso = date_iso ∧ r.status = "open" ∧ r.org = some o))
    | none => shifts.filter (fun r =>
        decide (r.date_iso = date_iso ∧ r.status = "open"))
  base.insertionSort createdLE

/-- Result of `show_shifts`: blocked by the auth gate (silently or with a
message), or the listed rows. -/
inductive ShowShiftsResult where
  | blockedSilent
  | blockedReply (r : Reply)
  | shown (rows : List ShiftRow)
deriving DecidableEq, Repr

/-- `show_shifts(update, ctx, date_iso)`: in a private chat the requester must
be approved and have a (truthy) approved org, and the query is scoped to that
org; elsewhere the requester org is `None` and the query is unscoped. -/
def show_shifts (db : DB) (chat_private : Bool) (u? : Option TgUser)
    (date_iso : String) : ShowShiftsResult :=
  if chat_private then
    match require_approved_check db true u? with
    | .blockedSilent => .blockedSilent
    | .blockedReply r => .blockedReply r
    | .ok =>
      match u? with
      | none => .blockedSilent
      | some u =>
        let requester_org := get_approved_org db u.id
        if strFalsy requester_org then .blockedSilent
        else .shown (listOpenByDate db.shifts date_iso requester_org)
  else .shown (listOpenByDate db.shifts date_iso none)

/-- Result of one handler invocation: the successor state with the replies
sent, or — when an uncaught Python exception escapes the handler — the state
at the moment of the raise. -/
inductive Outcome where
  | raised (st : BotState)
  | done (st : BotState) (replies : List Reply)
deriving DecidableEq, Repr

/-- The state a handler invocation leaves behind. -/
def Outcome.state : Outcome → BotState
  | .raised st => st
  | .done st _ => st

/-- The replies a handler invocation sent (none reach the user on the branches
that raise before sending). -/
def Outcome.replies : Outcome → List Reply
  | .raised _ => []
  | .done _ rs => rs

/-- Models Python `str.strip()`: drop whitespace from both ends. -/
def pyStrip (s : String) : String :=
  String.mk (((s.toList.dropWhile Char.isWhitespace).reverse.dropWhile
    Char.isWhitespace).reverse)

/-- The `PENDING` payload `photo_or_doc_image_handler` stores under a fresh
calendar message id when the caption carries no date. -/
def pendingEntryOf (m : IncomingMsg) : PendingData :=
  { src_chat_id := m.chat_id
    src_msg_id := m.message_id
    owner_id := m.from_user.map (fun u => u.id)
    owner_username := owner_username_of m
    caption := pyStrip m.caption
    file_id := m.file_id }

/-- The duplicate guard of the upload handler:
`if owner_id and has_open_on_date(owner_id, date_iso)` on the sender's id
(`owner_id` falsy means `None` or `0`). -/
def upload_dup (db : DB) (from_user : Option TgUser) (date_iso : String) : Bool :=
  match from_user with
  | some u => if u.id = 0 then false else has_open_on_date db u.id date_iso
  | none => false

/-- The duplicate guard of the SETDATE branch, on the stored owner id. -/
def setdate_dup (db : DB) (owner_id : Option Int) (date_iso : String) : Bool :=
  match owner_id with
  | some oid => if oid = 0 then false else has_open_on_date db oid date_iso
  | none => false

/-- `owner_org = get_approved_org(owner_id) if owner_id else None` in the
SETDATE branch. -/
def setdate_owner_org (db : DB) (owner_id : Option Int) : Option String :=
  match owner_id with
  | some oid => if oid = 0 then none else get_approved_org db oid
  | none => none

/-- `photo_or_doc_image_handler(update, ctx)`: private-chat uploads only,
gated by `require_approved`.  `capDate` stands for `parse_date(caption)`, the
regex date extraction, which is not modelled beyond its result; the handler
uses it exactly where the source uses the parsed value.  Without a date it
sends one calendar prompt and stores the correlation payload; with a date it
runs the duplicate guard and then `save_shift`. -/
def photo_or_doc_image_handler (st : BotState) (m : IncomingMsg)
    (capDate : Option String) : Outcome :=
  if m.chat_private then
    match require_approved_check st.db true m.from_user with
    | .blockedSilent => .done st []
    | .blockedReply r => .done st [r]
    | .ok =>
      match capDate with
      | none =>
        let calId := st.nextMsgId
        .done { st with
                  pending := pendingInsert st.pending calId (pendingEntryOf m)
                  nextMsgId := calId + 1 }
          [.calendarPrompt calId]
      | some date_iso =>
        if upload_dup st.db m.from_user date_iso then
          if isValidDateIso date_iso then .done st [.duplicateOpen date_iso]
          else .raised st
        else
          let res := save_shift st.db m date_iso
          if res.1 = -1 then .done { st with db := res.2 } [.uploadDeniedMissingOrg]
          else if isValidDateIso date_iso then
            .done { st with db := res.2 } [.confirmSaved date_iso]
          else .raised { st with db := res.2 }
  else .done st []

/-- `UPDATE users SET status=? WHERE user_id=? AND org=?`. -/
def update_user_status (users : List UserRow) (target : Int) (org : String)
    (new_status : String) : List UserRow :=
  users.map (fun r =>
    if r.user_id = target ∧ r.org = some org then { r with status := new_status } else r)

/-- The `@handle` extraction the CONTACT branch applies to a stored display
name: accepted only when it starts with `@` and has something after it. -/
def handle_of (username : String) : Option String :=
  if username.startsWith "@" ∧ username.length > 1 then some (username.drop 1)
  else none

/-- `button_handler(update, ctx)`: the callback dispatcher.  The username gate
runs first; then `query.data` is split on `|` and dispatched on the action
name.  The `SETDATE` and `SEARCH` branches index `parts[1]` unguarded, so a
bare action name raises `IndexError` there (modelled by `.raised`); every
other branch guards its argument access. -/
def button_handler (st : BotState) (q : CallbackQuery) : Outcome :=
  match require_username_check (some q.from_user) with
  | .blockedSilent => .done st []
  | .blockedReply r => .done st [r]
  | .ok =>
    match splitSep '|' ((q.data).getD "") with
    | [] => .done st []
    | p0 :: rest =>
      if p0 = "NAV" then
        if rest.length < 2 then .done st []
        else
          let date_str := (rest.getLast?).getD ""
          if isValidDateIso date_str then .done st [.navEdited] else .done st []
      else if p0 = "SETDATE" then
        match rest with
        | [] => .raised st
        | date_iso :: _ =>
          let popped := pendingPop st.pending q.message_id
          let st1 := { st with pending := popped.2 }
          match popped.1 with
          | none => .done st1 [.cannotRelink]
          | some data =>
            if setdate_dup st.db data.owner_id date_iso then
              if isValidDateIso date_iso then .done st1 [.duplicateOpen date_iso]
              else .raised st1
            else
              let owner_org := setdate_owner_org st.db data.owner_id
              if strFalsy owner_org then .done st1 [.notApprovedAnymore]
              else
                let res := save_shift_raw st1.db data.src_chat_id data.src_msg_id
                  data.owner_id (some data.owner_username) data.caption date_iso
                  owner_org data.file_id
                let st2 := { st1 with db := res.2 }
                if res.1 = -1 then .done st2 [.orgInvalid]
                else if isValidDateIso date_iso then .done st2 [.confirmSaved date_iso]
                else .raised st2
      else if p0 = "SEARCH" then
        match rest with
        | [] => .raised st
        | date_iso :: _ =>
          match show_shifts st.db q.chat_private (some q.from_user) date_iso with
          | .shown rows =>
            if rows.length ≠ 0 ∧ ¬ isValidDateIso date_iso then .raised st
            else .done st [.searchShown rows]
          | .blockedReply r => .done st [r]
          | .blockedSilent => .done st [.searchBlocked]
      else if p0 = "CLOSE" then
        match parseIntStr ((rest.head?).getD "") with
        | none => .done st [.invalidShiftId]
        | some sid =>
          match st.db.shifts.find? (fun r => decide ((r.id : Int) = sid)) with
          | none => .done st [.shiftNotFound]
          | some row =>
            if row.user_id = some q.from_user.id then
              let db2 := { st.db with
                shifts := st.db.shifts.filter (fun r => decide (¬ (r.id : Int) = sid)) }
              if isValidDateIso row.date_iso then
                .done { st with db := db2 } [.shiftClosed row.date_iso]
              else .raised { st with db := db2 }
            else .done st [.noPermission]
      else if p0 = "CONTACT" then
        match parseIntStr ((rest.head?).getD "") with
        | none => .done st [.contactInvalidId]
        | some sid =>
          match st.db.shifts.find? (fun r => decide ((r.id : Int) = sid)) with
          | none => .done st [.contactNotFound]
          | some row =>
            let requester_org := get_approved_org st.db q.from_user.id
            if ¬ strFalsy requester_org ∧ ¬ strFalsy row.org ∧ requester_org ≠ row.org then
              .done st [.contactCrossOrgBlocked]
            else
              let handle : Option String :=
                match handle_of row.username with
                | some h => some h
                | none =>
                  match row.user_id with
                  | none => none
                  | some oid =>
                    match st.db.users.find? (fun u => decide (u.user_id = oid)) with
                    | some urow => handle_of urow.username
                    | none => none
              match handle with
              | none => .done st [.contactNoUsername]
              | some h => .done st [.contactInfo h]
      else if p0 = "APPROVE" ∨ p0 = "REJECT" ∨ p0 = "REVOKE" then
        match rest with
        | tstr :: orgArg :: _ =>
          match parseIntStr tstr with
          | none => .done st [.invalidParams]
          | some target_uid =>
            match get_user_row st.db q.from_user.id with
            | none => .done st [.notRegistered]
            | some (_, admin_org, admin_status) =>
              if admin_status = "approved" ∧ admin_org = some orgArg ∧
                  is_admin_for_org q.from_user.id orgArg = true then
                let new_status :=
                  if p0 = "APPROVE" then "approved"
                  else if p0 = "REJECT" then "rejected"
                  else "pending"
                .done { st with db :=
                          { st.db with
                              users := update_user_status st.db.users target_uid
                                orgArg new_status } }
                  [.opCompleted p0 new_status target_uid]
              else .done st [.noOrgPermission]
        | _ => .done st [.invalidParams]
      else .done st []

/-- One inbound event processed by the single logical worker: a media upload
(`capDate` standing for `parse_date` of its caption) or a callback tap. -/
inductive Event where
  | upload (m : IncomingMsg) (capDate : Option String)
  | callback (q : CallbackQuery)
deriving DecidableEq, Repr

/-- Dispatches one event to its handler. -/
def dispatch (st : BotState) : Event → Outcome
  | .upload m d => photo_or_doc_image_handler st m d
  | .callback q => button_handler st q

/-- The state after one event. -/
def stepEvent (st : BotState) (e : Event) : BotState := (dispatch st e).state

/-- Sequential processing of a list of events. -/
def runEvents (st : BotState) (es : List Event) : BotState := es.foldl stepEvent st

/-- Sequential processing that also accumulates every reply sent. -/
def runCollect (st : BotState) (es : List Event) : BotState × List Reply :=
  es.foldl (fun acc e => ((dispatch acc.1 e).state, acc.2 ++ (dispatch acc.1 e).replies))
    (st, [])

/-- A well-formed platform event: Telegram never delivers a sender with
numeric id `0` (the source's truthiness tests would treat it as absent). -/
def eventOK : Event → Bool
  | .upload m _ =>
    match m.from_user with
    | some u => decide (u.id ≠ 0)
    | none => true
  | .callback _ => true

/-- Number of open rows of the `shifts` table for one `(owner_id, date_iso)`
pair. -/
def openPairCount (shifts : List ShiftRow) (uid : Int) (d : String) : Nat :=
  (shifts.filter (fun r =>
    decide (r.user_id = some uid ∧ r.date_iso = d ∧ r.status = "open"))).length

/-- Number of open rows of the `shifts` table for one
`(owner_id, date_iso, org)` triple. -/
def openTripleCount (shifts : List ShiftRow) (uid : Int) (d : String)
    (org : Option String) : Nat :=
  (shifts.filter (fun r =>
    decide (r.user_id = some uid ∧ r.date_iso = d ∧ r.status = "open" ∧
      r.org = org))).length

/-- Invariant: at most one open shift per `(owner_id, date_iso)` pair. -/
def PairInv (shifts : List ShiftRow) : Prop :=
  ∀ uid d, openPairCount shifts uid d ≤ 1

/-- Invariant I1: at most one open shift per `(owner_id, date_iso, org)`
triple. -/
def TripleInv (shifts : List ShiftRow) : Prop :=
  ∀ uid d org, openTripleCount shifts uid d org ≤ 1

lemma has_open_eq_false_iff (db : DB) (uid : Int) (d : String) :
    has_open_on_date db uid d = false ↔ openPairCount db.shifts uid d = 0 := by
  simp [has_open_on_date, openPairCount, List.any_eq_false, List.length_eq_zero,
    List.filter_eq_nil_iff]

lemma openPairCount_append (s t : List ShiftRow) (uid : Int) (d : String) :
    openPairCount (s ++ t) uid d = openPairCount s uid d + openPairCount t uid d := by
  simp [openPairCount, List.filter_append]

lemma openPairCount_filter_le (s : List ShiftRow) (p : ShiftRow → Bool)
    (uid : Int) (d : String) :
    openPairCount (s.filter p) uid d ≤ openPairCount s uid d :=
  List.Sublist.length_le (List.Sublist.filter _ (List.filter_sublist s))

lemma openTripleCount_le_pair (s : List ShiftRow) (uid : Int) (d : String)
    (org : Option String) :
    openTripleCount s uid d org ≤ openPairCount s uid d :=
  List.Sublist.length_le (List.monotone_filter_right s (fun r hr => by
    simp only [decide_eq_true_eq] at hr ⊢
    exact ⟨hr.1, hr.2.1, hr.2.2.1⟩))

lemma PairInv.toTriple {s : List ShiftRow} (h : PairInv s) : TripleInv s :=
  fun uid d org => Nat.le_trans (openTripleCount_le_pair s uid d org) (h uid d)

/-- The inserts of `save_shift_raw` preserve the pair invariant whenever the
duplicate guard held (in the source's handler order) immediately before: any
`some`-valued owner being written has no open row for the date. -/
lemma pairInv_save_shift_raw (db : DB) (chat_id message_id : Int)
    (user_id : Option Int) (username : Option String) (caption date_iso : String)
    (org0 file_id : Option String) (h : PairInv db.shifts)
    (hg : ∀ uid : Int, user_id = some uid →
      has_open_on_date db uid date_iso = false) :
    PairInv (save_shift_raw db chat_id message_id user_id username caption date_iso
      org0 file_id).2.shifts := by
  unfold save_shift_raw
  dsimp only
  split
  · exact h
  · intro uid d
    rw [openPairCount_append]
    by_cases hu : user_id = some uid
    · by_cases hd : date_iso = d
      · have h0 : openPairCount db.shifts uid d = 0 := by
          have := (has_open_eq_false_iff db uid date_iso).mp (hg uid hu)
          simpa [hd] using this
        have h1 : openPairCount [mkShiftRow db chat_id message_id user_id username
            caption date_iso (resolve_org db user_id org0) file_id] uid d ≤ 1 := by
          simp only [openPairCount]
          exact Nat.le_trans (List.length_filter_le _ _) (by simp)
        omega
      · have h1 : openPairCount [mkShiftRow db chat_id message_id user_id username
            caption date_iso (resolve_org db user_id org0) file_id] uid d = 0 := by
          simp [openPairCount, mkShiftRow, hd]
        rw [h1]
        simpa using h uid d
    · have h1 : openPairCount [mkShiftRow db chat_id message_id user_id username
          caption date_iso (resolve_org db user_id org0) file_id] uid d = 0 := by
        simp [openPairCount, mkShiftRow, hu]
      rw [h1]
      simpa using h uid d

lemma PairInv.filter {s : List ShiftRow} (p : ShiftRow → Bool) (h : PairInv s) :
    PairInv (s.filter p) :=
  fun uid d => Nat.le_trans (openPairCount_filter_le s p uid d) (h uid d)

lemma setdate_guard_facts (db : DB) (o : Option Int) (d : String)
    (hdup : setdate_dup db o d = false)
    (horg : strFalsy (setdate_owner_org db o) = false) :
    ∃ oid : Int, o = some oid ∧ oid ≠ 0 ∧ has_open_on_date db oid d = false := by
  cases o with
  | none => simp [setdate_owner_org, strFalsy] at horg
  | some oid =>
    by_cases h0 : oid = 0
    · simp [setdate_owner_org, h0, strFalsy] at horg
    · refine ⟨oid, rfl, h0, ?_⟩
      simpa [setdate_dup, h0] using hdup

lemma pairInv_photo (st : BotState) (m : IncomingMsg) (capDate : Option String)
    (hok : eventOK (.upload m capDate) = true)
    (h : PairInv st.db.shifts) :
    PairInv (photo_or_doc_image_handler st m capDate).state.db.shifts := by
  unfold photo_or_doc_image_handler
  split
  · rcases hgate : require_approved_check st.db true m.from_user with _ | _ | r <;>
      simp only [hgate]
    · cases capDate with
      | none => exact h
      | some date_iso =>
        dsimp only
        have key : upload_dup st.db m.from_user date_iso = false →
            PairInv (save_shift st.db m date_iso).2.shifts := by
          intro hdup
          unfold save_shift
          apply pairInv_save_shift_raw _ _ _ _ _ _ _ _ _ h
          intro uid hu
          cases hfu : m.from_user with
          | none => rw [hfu] at hu; simp at hu
          | some u =>
            rw [hfu] at hu
            have huid : u.id = uid := by simpa using hu
            have hne : u.id ≠ 0 := by
              simp only [eventOK, hfu, decide_eq_true_eq] at hok
              exact hok
            rw [hfu] at hdup
            rw [← huid]
            simpa [upload_dup, hne] using hdup
        split
        · split
          · exact h
          · exact h
        · rename_i hdup
          have hd : upload_dup st.db m.from_user date_iso = false := by
            simpa using hdup
          split
          · exact key hd
          · split
            · exact key hd
            · exact key hd
    · exact h
    · exact h
  · exact h

lemma pairInv_button (st : BotState) (q : CallbackQuery)
    (h : PairInv st.db.shifts) :
    PairInv (button_handler st q).state.db.shifts := by
  unfold button_handler
  rcases require_username_check (some q.from_user) with _ | _ | r
  · -- ok
    rcases splitSep '|' ((q.data).getD "") with _ | ⟨p0, rest⟩
    · exact h
    · dsimp only
      split
      · -- NAV
        split
        · exact h
        · split <;> exact h
      · split
        · -- SETDATE
          rcases rest with _ | ⟨date_iso, rest2⟩
          · exact h
          · dsimp only
            rcases (pendingPop st.pending q.message_id).1 with _ | data
            · exact h
            · dsimp only
              split
              · split <;> exact h
              · rename_i hdup
                split
                · exact h
                · rename_i horg
                  have hdup2 : setdate_dup st.db data.owner_id date_iso = false := by
                    simpa using hdup
                  have horg2 : strFalsy (setdate_owner_org st.db data.owner_id) =
                      false := by simpa using horg
                  obtain ⟨oid, hoid, hne, hopen⟩ :=
                    setdate_guard_facts st.db data.owner_id date_iso hdup2 horg2
                  have kk : PairInv (save_shift_raw st.db data.src_chat_id
                      data.src_msg_id data.owner_id (some data.owner_username)
                      data.caption date_iso (setdate_owner_org st.db data.owner_id)
                      data.file_id).2.shifts := by
                    apply pairInv_save_shift_raw _ _ _ _ _ _ _ _ _ h
                    intro uid hu
                    rw [hoid] at hu
                    rw [← Option.some.inj hu]
                    exact hopen
                  split
                  · exact kk
                  · split
                    · exact kk
                    · exact kk
        · split
          · -- SEARCH
            rcases rest with _ | ⟨date_iso, rest2⟩
            · exact h
            · dsimp only
              rcases show_shifts st.db q.chat_private (some q.from_user) date_iso with
                _ | r2 | rows
              · exact h
              · exact h
              · dsimp only
                split <;> exact h
          · split
            · -- CLOSE
              rcases parseIntStr ((rest.head?).getD "") with _ | sid
              · exact h
              · dsimp only
                rcases hfind : st.db.shifts.find?
                    (fun r => decide ((r.id : Int) = sid)) with _ | row <;>
                  rw [hfind]
                · exact h
                · dsimp only
                  split
                  · split
                    · exact PairInv.filter _ h
                    · exact PairInv.filter _ h
                  · exact h
            · split
              · -- CONTACT
                rcases parseIntStr ((rest.head?).getD "") with _ | sid
                · exact h
                · dsimp only
                  rcases hfind : st.db.shifts.find?
                      (fun r => decide ((r.id : Int) = sid)) with _ | row <;>
                    rw [hfind]
                  · exact h
                  · dsimp only
                    split
                    · exact h
                    · rcases (match handle_of row.username with
                        | some hh => some hh
                        | none =>
                          match row.user_id with
                          | none => none
                          | some oid =>
                            match st.db.users.find? (fun u => decide (u.user_id = oid)) with
                            | some urow => handle_of urow.username
                            | none => none : Option String) with _ | hh
                      · exact h
                      · exact h
              · split
                · -- APPROVE / REJECT / REVOKE: only the users table changes
                  rcases rest with _ | ⟨tstr, _ | ⟨orgArg, rest3⟩⟩
                  · exact h
                  · exact h
                  · dsimp only
                    rcases parseIntStr tstr with _ | target_uid
                    · exact h
                    · dsimp only
                      rcases get_user_row st.db q.from_user.id with _ | ⟨a, admin_org, admin_status⟩
                      · exact h
                      · dsimp only
                        split
                        · exact h
                        · exact h
                · exact h
  · exact h
  · exact h

lemma pairInv_step (st : BotState) (e : Event) (hok : eventOK e = true)
    (h : PairInv st.db.shifts) : PairInv (stepEvent st e).db.shifts := by
  cases e with
  | upload m d => exact pairInv_photo st m d hok h
  | callback q => exact pairInv_button st q h

lemma pairInv_run (st : BotState) (es : List Event)
    (hok : ∀ e ∈ es, eventOK e = true) (h : PairInv st.db.shifts) :
    PairInv (runEvents st es).db.shifts := by
  induction es generalizing st with
  | nil => exact h
  | cons e es ih =>
    exact ih (stepEvent st e) (fun x hx => hok x (List.mem_cons_of_mem e hx))
      (pairInv_step st e (hok e (List.mem_cons_self e es)) h)

/-- C1: starting from a shift store with at most one open shift per
`(owner_id, date_iso)` pair, every sequence of well-formed upload events,
SETDATE taps and CLOSE taps, processed sequentially, keeps the shifts table
at no more than one open row per `(owner_id, date_iso, org)` triple — at
every intermediate point of the run. -/
theorem c1_single_open_invariant (st : BotState) (es : List Event)
    (h0 : PairInv st.db.shifts) (hok : ∀ e ∈ es, eventOK e = true) (n : Nat) :
    TripleInv (runEvents st (es.take n)).db.shifts :=
  PairInv.toTriple
    (pairInv_run st (es.take n) (fun e he => hok e (List.take_subset n es he)) h0)

/-- Concrete store for the C1 witness: one approved user, empty shifts. -/
def c1w_st : BotState :=
  { db := { users := [⟨1, "@a", "A", some "PDCFRNA", "approved"⟩], shifts := [],
            nextShiftId := 1, now := 0 }
    pending := []
    nextMsgId := 50 }

/-- Concrete upload message for the C1 witness. -/
def c1w_msg : IncomingMsg :=
  { chat_id := 9, chat_private := true, message_id := 1,
    from_user := some ⟨1, some "a", "A"⟩, caption := "5/12/2025",
    file_id := some "f" }

/-- Concrete event sequence for the C1 witness: two uploads for one date and
a CLOSE tap. -/
def c1w_events : List Event :=
  [Event.upload c1w_msg (some "2025-12-05"),
   Event.upload c1w_msg (some "2025-12-05"),
   Event.callback ⟨⟨1, some "a", "A"⟩, true, some 50, some "CLOSE|1"⟩]

theorem c1_single_open_invariant_witness :
    PairInv c1w_st.db.shifts ∧ (∀ e ∈ c1w_events, eventOK e = true) ∧
      TripleInv (runEvents c1w_st (c1w_events.take 3)).db.shifts := by
  have h0 : PairInv c1w_st.db.shifts := by
    intro uid d
    simp [c1w_st, openPairCount]
  have hok : ∀ e ∈ c1w_events, eventOK e = true := by decide
  exact ⟨h0, hok, c1_single_open_invariant c1w_st c1w_events h0 hok 3⟩

/-- C2: in a private chat, a listing served to an approved requester of org
`A` contains only open rows of the requested date and of org `A` — never a
row of a different org — and is ordered by creation time ascending. -/
theorem c2_org_isolation (db : DB) (u : TgUser) (A d : String)
    (rows : List ShiftRow)
    (hA : get_approved_org db u.id = some A)
    (hs : show_shifts db true (some u) d = .shown rows) :
    (∀ r ∈ rows, r.status = "open" ∧ r.date_iso = d ∧ r.org = some A ∧
      ∀ B, B ≠ A → r.org ≠ some B) ∧
    List.Sorted createdLE rows := by
  unfold show_shifts at hs
  rcases hg : require_approved_check db true (some u) with _ | _ | r <;>
    simp only [hg, if_true] at hs
  · rw [hA] at hs
    by_cases hA0 : A = ""
    · simp [strFalsy, hA0] at hs
    · rw [show strFalsy (some A) = false from by simp [strFalsy, hA0]] at hs
      simp only [Bool.false_eq_true, if_false, ShowShiftsResult.shown.injEq] at hs
      subst hs
      constructor
      · intro r hr
        unfold listOpenByDate at hr
        rw [List.mem_insertionSort] at hr
        rw [List.mem_filter] at hr
        have hp := hr.2
        rw [decide_eq_true_eq] at hp
        exact ⟨hp.2.1, hp.1, hp.2.2, fun B hB hc => hB (by
          have := hp.2.2.symm.trans hc
          exact (Option.some.inj this).symm)⟩
      · exact List.sorted_insertionSort createdLE _
  · simp at hs
  · simp at hs

/-- Concrete store for the C2 witness: one approved requester, one open shift
in their org and one in the other org, same date. -/
def c2w_db : DB :=
  { users := [⟨1, "@a", "A", some "PDCFRNA", "approved"⟩]
    shifts := [⟨1, 9, 11, some 1, "@a", "2025-12-05", "", some "f",
                 some "PDCFRNA", "open", 0⟩,
               ⟨2, 9, 12, some 2, "@b", "2025-12-05", "", some "g",
                 some "PDBFRNA", "open", 1⟩]
    nextShiftId := 3, now := 2 }

/-- The rows the C2 witness expects: only the requester-org shift. -/
def c2w_rows : List ShiftRow :=
  [⟨1, 9, 11, some 1, "@a", "2025-12-05", "", some "f", some "PDCFRNA", "open", 0⟩]

theorem c2_org_isolation_witness :
    get_approved_org c2w_db 1 = some "PDCFRNA" ∧
    show_shifts c2w_db true (some ⟨1, some "a", "A"⟩) "2025-12-05" =
      .shown c2w_rows ∧
    ((∀ r ∈ c2w_rows, r.status = "open" ∧ r.date_iso = "2025-12-05" ∧
        r.org = some "PDCFRNA" ∧ ∀ B, B ≠ "PDCFRNA" → r.org ≠ some B) ∧
      List.Sorted createdLE c2w_rows) :=
  ⟨by decide, by decide,
    c2_org_isolation c2w_db ⟨1, some "a", "A"⟩ "PDCFRNA" "2025-12-05" c2w_rows
      (by decide) (by decide)⟩

lemma pendingPop_of_lookup (p : List (Int × PendingData)) (mid : Int)
    (v : PendingData) (h : pendingLookup p mid = some v) :
    pendingPop p (some mid) = (some v, pendingErase p mid) := by
  unfold pendingPop
  dsimp only
  rw [h]

lemma pendingLookup_erase (p : List (Int × PendingData)) (mid : Int) :
    pendingLookup (pendingErase p mid) mid = none := by
  unfold pendingLookup
  have hfind : List.find? (fun e => decide (e.1 = mid)) (pendingErase p mid) = none := by
    rw [List.find?_eq_none]
    intro x hx
    unfold pendingErase at hx
    have hx2 := (List.mem_filter.mp hx).2
    simp only [decide_eq_true_eq] at hx2 ⊢
    exact hx2
  rw [hfind]

lemma pendingPop_none_snd (p : List (Int × PendingData)) (k? : Option Int)
    (h : (pendingPop p k?).1 = none) : (pendingPop p k?).2 = p := by
  cases k? with
  | none => rfl
  | some k =>
    unfold pendingPop at h ⊢
    dsimp only at h ⊢
    cases hl : pendingLookup p k with
    | none => rfl
    | some v => rw [hl] at h; simp at h

lemma require_username_ok (u : TgUser) (h : strFalsy u.username = false) :
    require_username_check (some u) = .ok := by
  unfold require_username_check
  simp [h]

/-- Shared fact: a SETDATE tap whose correlation lookup misses leaves the
state untouched and asks the user to resend the image. -/
lemma button_setdate_miss (st : BotState) (q : CallbackQuery) (d : String)
    (rest : List String)
    (husr : strFalsy q.from_user.username = false)
    (hsplit : splitSep '|' ((q.data).getD "") = "SETDATE" :: d :: rest)
    (hmiss : (pendingPop st.pending q.message_id).1 = none) :
    button_handler st q = .done st [.cannotRelink] := by
  unfold button_handler
  rw [require_username_ok q.from_user husr, hsplit]
  dsimp only
  rw [if_neg (by decide)]
  rw [if_pos rfl]
  have h2 := pendingPop_none_snd st.pending q.message_id hmiss
  rw [hmiss, h2]

/-- C3: a stored correlation token yields its payload on the first take and
`absent` on the second; a SETDATE tap that hits the absent case changes
nothing and asks the user to resend the image. -/
theorem c3_correlation_single_use (st : BotState) (q : CallbackQuery)
    (mid : Int) (v : PendingData) (d : String) (rest : List String)
    (husr : strFalsy q.from_user.username = false)
    (hsplit : splitSep '|' ((q.data).getD "") = "SETDATE" :: d :: rest)
    (hmid : q.message_id = some mid)
    (hlook : pendingLookup st.pending mid = some v) :
    (pendingPop st.pending (some mid)).1 = some v ∧
    (pendingPop (pendingPop st.pending (some mid)).2 (some mid)).1 = none ∧
    ∀ st1 : BotState, st1.pending = (pendingPop st.pending (some mid)).2 →
      button_handler st1 q = .done st1 [.cannotRelink] := by
  have hpop := pendingPop_of_lookup st.pending mid v hlook
  refine ⟨by rw [hpop], ?_, ?_⟩
  · rw [hpop]
    unfold pendingPop
    dsimp only
    rw [pendingLookup_erase]
  · intro st1 h1
    apply button_setdate_miss st1 q d rest husr hsplit
    rw [hmid, h1, hpop]
    unfold pendingPop
    dsimp only
    rw [pendingLookup_erase]

/-- Concrete state for the C3 witness: one stored correlation entry. -/
def c3w_entry : PendingData :=
  { src_chat_id := 9, src_msg_id := 11, owner_id := some 1,
    owner_username := "@a", caption := "", file_id := some "f" }

/-- Concrete state for the C3 witness. -/
def c3w_st : BotState :=
  { db := { users := [⟨1, "@a", "A", some "PDCFRNA", "approved"⟩], shifts := [],
            nextShiftId := 1, now := 0 }
    pending := [(50, c3w_entry)]
    nextMsgId := 51 }

/-- Concrete SETDATE tap for the C3 witness. -/
def c3w_q : CallbackQuery :=
  { from_user := ⟨1, some "a", "A"⟩, chat_private := true, message_id := some 50,
    data := some "SETDATE|2025-12-05" }

theorem c3_correlation_single_use_witness :
    (pendingPop c3w_st.pending (some 50)).1 = some c3w_entry ∧
    (pendingPop (pendingPop c3w_st.pending (some 50)).2 (some 50)).1 = none ∧
    ∀ st1 : BotState, st1.pending = (pendingPop c3w_st.pending (some 50)).2 →
      button_handler st1 c3w_q = .done st1 [.cannotRelink] :=
  c3_correlation_single_use c3w_st c3w_q 50 c3w_entry "2025-12-05" []
    (by decide) (by decide) (by decide) (by decide)

/-- C4: when the owner already has an open shift on date `d`, both a second
upload for `d` and a SETDATE tap choosing `d` refuse the posting, write
nothing to the shifts table, and report the conflicting date. -/
theorem c4_duplicate_refusal (st : BotState) (m : IncomingMsg) (u : TgUser)
    (d : String) (q : CallbackQuery) (mid : Int) (entry : PendingData)
    (rest : List String)
    (hm_priv : m.chat_private = true)
    (hm_user : m.from_user = some u)
    (hgate : require_approved_check st.db true (some u) = .ok)
    (hu0 : u.id ≠ 0)
    (hopen : has_open_on_date st.db u.id d = true)
    (hvd : isValidDateIso d = true)
    (husr : strFalsy q.from_user.username = false)
    (hsplit : splitSep '|' ((q.data).getD "") = "SETDATE" :: d :: rest)
    (hmid : q.message_id = some mid)
    (hlook : pendingLookup st.pending mid = some entry)
    (hown : entry.owner_id = some u.id) :
    photo_or_doc_image_handler st m (some d) = .done st [.duplicateOpen d] ∧
    button_handler st q =
      .done { st with pending := pendingErase st.pending mid } [.duplicateOpen d] := by
  constructor
  · unfold photo_or_doc_image_handler
    rw [hm_priv, if_pos rfl, hm_user, hgate]
    dsimp only
    have hdup : upload_dup st.db (some u) d = true := by
      simp [upload_dup, hu0, hopen]
    rw [hdup, if_pos rfl, hvd, if_pos rfl]
  · unfold button_handler
    rw [require_username_ok q.from_user husr, hsplit]
    dsimp only
    rw [if_neg (by decide), if_pos rfl, hmid]
    rw [pendingPop_of_lookup st.pending mid entry hlook]
    dsimp only
    have hdup : setdate_dup st.db entry.owner_id d = true := by
      simp [setdate_dup, hown, hu0, hopen]
    rw [hdup, if_pos rfl, hvd, if_pos rfl]

/-- Concrete store for the C4 witness: one open shift for the date. -/
def c4w_st : BotState :=
  { db := { users := [⟨1, "@a", "A", some "PDCFRNA", "approved"⟩],
            shifts := [⟨1, 9, 11, some 1, "@a", "2025-12-05", "", some "f",
              some "PDCFRNA", "open", 0⟩],
            nextShiftId := 2, now := 1 }
    pending := [(50, c3w_entry)]
    nextMsgId := 51 }

/-- Concrete second upload for the C4 witness. -/
def c4w_msg : IncomingMsg :=
  { chat_id := 9, chat_private := true, message_id := 12,
    from_user := some ⟨1, some "a", "A"⟩, caption := "5/12/2025",
    file_id := some "g" }

theorem c4_duplicate_refusal_witness :
    photo_or_doc_image_handler c4w_st c4w_msg (some "2025-12-05") =
      .done c4w_st [.duplicateOpen "2025-12-05"] ∧
    button_handler c4w_st c3w_q =
      .done { c4w_st with pending := pendingErase c4w_st.pending 50 }
        [.duplicateOpen "2025-12-05"] :=
  c4_duplicate_refusal c4w_st c4w_msg ⟨1, some "a", "A"⟩ "2025-12-05" c3w_q 50
    c3w_entry [] (by decide) (by decide) (by decide) (by decide) (by decide)
    (by decide) (by decide) (by decide) (by decide) (by decide) (by decide)

/-- C5 (invariant I2): `save_shift_raw` refuses with `-1` and writes nothing
when the org is falsy and cannot be inferred from an approved caller, and
every row it ever appends carries a non-null org. -/
theorem c5_org_required (db : DB) (chat_id message_id : Int)
    (user_id : Option Int) (username : Option String) (caption date_iso : String)
    (org0 file_id : Option String) :
    ((save_shift_raw db chat_id message_id user_id username caption date_iso
        org0 file_id).1 = -1 →
      (save_shift_raw db chat_id message_id user_id username caption date_iso
        org0 file_id).2 = db) ∧
    (∀ r ∈ (save_shift_raw db chat_id message_id user_id username caption date_iso
        org0 file_id).2.shifts, r ∈ db.shifts ∨ r.org ≠ none) := by
  unfold save_shift_raw
  dsimp only
  split
  · exact ⟨fun _ => rfl, fun r hr => Or.inl hr⟩
  · rename_i hfalsy
    constructor
    · intro hid
      exfalso
      simp only [Prod.fst] at hid
      omega
    · intro r hr
      rw [List.mem_append] at hr
      rcases hr with hr | hr
      · exact Or.inl hr
      · right
        have hr2 : r = mkShiftRow db chat_id message_id user_id username caption
            date_iso (resolve_org db user_id org0) file_id := by
          simpa using hr
        rw [hr2]
        intro hc
        rw [show (mkShiftRow db chat_id message_id user_id username caption
            date_iso (resolve_org db user_id org0) file_id).org =
            resolve_org db user_id org0 from rfl] at hc
        rw [hc] at hfalsy
        simp [strFalsy] at hfalsy

theorem c5_org_required_witness :
    (save_shift_raw ⟨[], [], 1, 0⟩ 9 11 (some 1) (some "@a") "" "2025-12-05"
      none none).1 = -1 ∧
    (save_shift_raw ⟨[], [], 1, 0⟩ 9 11 (some 1) (some "@a") "" "2025-12-05"
      none none).2 = (⟨[], [], 1, 0⟩ : DB) ∧
    ∀ r ∈ (save_shift_raw ⟨[], [], 1, 0⟩ 9 11 (some 1) (some "@a") "" "2025-12-05"
      none none).2.shifts, r ∈ (⟨[], [], 1, 0⟩ : DB).shifts ∨ r.org ≠ none := by
  refine ⟨by decide, ?_, ?_⟩
  · exact (c5_org_required ⟨[], [], 1, 0⟩ 9 11 (some 1) (some "@a") ""
      "2025-12-05" none none).1 (by decide)
  · exact (c5_org_required ⟨[], [], 1, 0⟩ 9 11 (some 1) (some "@a") ""
      "2025-12-05" none none).2

/-- C6 (Scenario D): an APPROVE/REJECT/REVOKE tap carrying org `Y` by a user
who is not an approved user of org `Y` statically registered as its admin is
refused, and no row of the users table changes. -/
theorem c6_cross_org_admin_isolation (st : BotState) (q : CallbackQuery)
    (act tstr orgY : String) (target : Int)
    (husr : strFalsy q.from_user.username = false)
    (hsplit : splitSep '|' ((q.data).getD "") = [act, tstr, orgY])
    (hact : act = "APPROVE" ∨ act = "REJECT" ∨ act = "REVOKE")
    (hparse : parseIntStr tstr = some target)
    (hnot : ∀ a org status, get_user_row st.db q.from_user.id = some (a, org, status) →
      ¬(status = "approved" ∧ org = some orgY ∧
        is_admin_for_org q.from_user.id orgY = true)) :
    (button_handler st q).state = st ∧
    ((button_handler st q).replies = [Reply.notRegistered] ∨
     (button_handler st q).replies = [Reply.noOrgPermission]) := by
  have key : button_handler st q = .done st [Reply.notRegistered] ∨
      button_handler st q = .done st [Reply.noOrgPermission] := by
    unfold button_handler
    rw [require_username_ok q.from_user husr, hsplit]
    dsimp only
    have h1 : ¬ act = "NAV" := by rcases hact with h | h | h <;> subst h <;> decide
    have h2 : ¬ act = "SETDATE" := by rcases hact with h | h | h <;> subst h <;> decide
    have h3 : ¬ act = "SEARCH" := by rcases hact with h | h | h <;> subst h <;> decide
    have h4 : ¬ act = "CLOSE" := by rcases hact with h | h | h <;> subst h <;> decide
    have h5 : ¬ act = "CONTACT" := by rcases hact with h | h | h <;> subst h <;> decide
    rw [if_neg h1, if_neg h2, if_neg h3, if_neg h4, if_neg h5, if_pos hact]
    rw [hparse]
    dsimp only
    cases hrow : get_user_row st.db q.from_user.id with
    | none => left; rfl
    | some triple =>
      obtain ⟨a, org, status⟩ := triple
      dsimp only
      rw [if_neg (hnot a org status hrow)]
      right; rfl
  rcases key with k | k <;> rw [k]
  · exact ⟨rfl, Or.inl rfl⟩
  · exact ⟨rfl, Or.inr rfl⟩

/-- Concrete state for the C6 witness: the tapper is the approved static
admin of `PDCFRNA` but the tap carries `PDBFRNA`. -/
def c6w_st : BotState :=
  { db := { users := [⟨455696266, "@adm", "Adm", some "PDCFRNA", "approved"⟩,
                      ⟨7, "@p", "P", some "PDBFRNA", "pending"⟩],
            shifts := [], nextShiftId := 1, now := 0 }
    pending := []
    nextMsgId := 60 }

/-- Concrete cross-org APPROVE tap for the C6 witness. -/
def c6w_q : CallbackQuery :=
  { from_user := ⟨455696266, some "adm", "Adm"⟩, chat_private := true,
    message_id := some 61, data := some "APPROVE|7|PDBFRNA" }

theorem c6_cross_org_admin_isolation_witness :
    (button_handler c6w_st c6w_q).state = c6w_st ∧
    ((button_handler c6w_st c6w_q).replies = [Reply.notRegistered] ∨
     (button_handler c6w_st c6w_q).replies = [Reply.noOrgPermission]) :=
  c6_cross_org_admin_isolation c6w_st c6w_q "APPROVE" "7" "PDBFRNA" 7
    (by decide) (by decide) (Or.inl rfl) (by decide)
    (by
      intro a org status h
      have hrow : get_user_row c6w_st.db c6w_q.from_user.id =
          some (455696266, some "PDCFRNA", "approved") := by decide
      rw [hrow] at h
      have h2 := Option.some.inj h
      rw [Prod.mk.injEq, Prod.mk.injEq] at h2
      obtain ⟨h3, h4, h5⟩ := h2
      subst h4
      subst h5
      decide)

/-- C10: a CLOSE tap on an existing shift deletes the row exactly when the
tapper is the stored owner; any other tapper gets a permission error and the
table is unchanged. -/
theorem c10_owner_only_close (st : BotState) (q : CallbackQuery)
    (tstr : String) (sid : Int) (row : ShiftRow) (rest : List String)
    (husr : strFalsy q.from_user.username = false)
    (hsplit : splitSep '|' ((q.data).getD "") = "CLOSE" :: tstr :: rest)
    (hparse : parseIntStr tstr = some sid)
    (hfind : st.db.shifts.find? (fun r => decide ((r.id : Int) = sid)) = some row) :
    (row.user_id ≠ some q.from_user.id →
      button_handler st q = .done st [.noPermission]) ∧
    (row.user_id = some q.from_user.id →
      (button_handler st q).state =
        { st with db := { st.db with
            shifts := st.db.shifts.filter (fun r => decide (¬(r.id : Int) = sid)) } }) := by
  unfold button_handler
  rw [require_username_ok q.from_user husr, hsplit]
  dsimp only
  rw [if_neg (by decide), if_neg (by decide), if_neg (by decide), if_pos rfl]
  dsimp only [List.head?, Option.getD]
  rw [hparse]
  dsimp only
  rw [hfind]
  dsimp only
  constructor
  · intro hne
    rw [if_neg hne]
  · intro heq
    rw [if_pos heq]
    split <;> rfl

/-- Concrete store for the C10 witness: one open shift owned by user 1. -/
def c10w_st : BotState :=
  { db := { users := [⟨1, "@a", "A", some "PDCFRNA", "approved"⟩,
                      ⟨2, "@b", "B", some "PDCFRNA", "approved"⟩],
            shifts := [⟨1, 9, 11, some 1, "@a", "2025-12-05", "", some "f",
              some "PDCFRNA", "open", 0⟩],
            nextShiftId := 2, now := 1 }
    pending := []
    nextMsgId := 70 }

/-- CLOSE tap by the owner, for the C10 witness. -/
def c10w_q_owner : CallbackQuery :=
  { from_user := ⟨1, some "a", "A"⟩, chat_private := true,
    message_id := some 71, data := some "CLOSE|1" }

/-- CLOSE tap by a different user, for the C10 witness. -/
def c10w_q_other : CallbackQuery :=
  { from_user := ⟨2, some "b", "B"⟩, chat_private := true,
    message_id := some 72, data := some "CLOSE|1" }

theorem c10_owner_only_close_witness :
    button_handler c10w_st c10w_q_other = .done c10w_st [.noPermission] ∧
    (button_handler c10w_st c10w_q_owner).state =
      { c10w_st with db := { c10w_st.db with
          shifts := c10w_st.db.shifts.filter
            (fun r => decide (¬(r.id : Int) = 1)) } } := by
  constructor
  · exact (c10_owner_only_close c10w_st c10w_q_other "1" 1
      ⟨1, 9, 11, some 1, "@a", "2025-12-05", "", some "f", some "PDCFRNA",
        "open", 0⟩ []
      (by decide) (by decide) (by decide) (by decide)).1 (by decide)
  · exact (c10_owner_only_close c10w_st c10w_q_owner "1" 1
      ⟨1, 9, 11, some 1, "@a", "2025-12-05", "", some "f", some "PDCFRNA",
        "open", 0⟩ []
      (by decide) (by decide) (by decide) (by decide)).2 (by decide)

/-- Concrete state for the C7 counterexample: empty correlation store, one
approved user. -/
def c7x_st : BotState :=
  { db := { users := [⟨1, "@a", "A", some "PDCFRNA", "approved"⟩], shifts := [],
            nextShiftId := 1, now := 0 }
    pending := []
    nextMsgId := 80 }

/-- A SETDATE token in the spec's inline-fallback shape (date, source chat,
source message, owner id); the store holds no entry for the calendar
message. -/
def c7x_q : CallbackQuery :=
  { from_user := ⟨1, some "a", "A"⟩, chat_private := true, message_id := some 80,
    data := some "SETDATE|2025-12-10|9|11|1" }

theorem c7_counterexample :
    button_handler c7x_st c7x_q = .done c7x_st [.cannotRelink] ∧
    (button_handler c7x_st c7x_q).state.db.shifts = [] := by decide

/-- C7 (amended): the SETDATE decoder accepts only the short correlation
shape — whatever extra inline arguments the token carries, a Correlation
Store miss makes the handler fail explicitly (asking the user to resend the
image) with no shift created, rather than completing the action from inline
fields. -/
theorem c7_no_inline_fallback (st : BotState) (q : CallbackQuery)
    (d : String) (rest : List String)
    (husr : strFalsy q.from_user.username = false)
    (hsplit : splitSep '|' ((q.data).getD "") = "SETDATE" :: d :: rest)
    (hmiss : (pendingPop st.pending q.message_id).1 = none) :
    button_handler st q = .done st [.cannotRelink] :=
  button_setdate_miss st q d rest husr hsplit hmiss

/-- Concrete state for the C7 witness. -/
def c7w_st : BotState :=
  { db := { users := [⟨2, "@b", "B", some "PDBFRNA", "approved"⟩], shifts := [],
            nextShiftId := 1, now := 0 }
    pending := []
    nextMsgId := 81 }

/-- Concrete inline-shape tap for the C7 witness. -/
def c7w_q : CallbackQuery :=
  { from_user := ⟨2, some "b", "B"⟩, chat_private := true, message_id := some 81,
    data := some "SETDATE|2026-01-02|9|12|2" }

theorem c7_no_inline_fallback_witness :
    button_handler c7w_st c7w_q = .done c7w_st [.cannotRelink] :=
  c7_no_inline_fallback c7w_st c7w_q "2026-01-02" ["9", "12", "2"]
    (by decide) (by decide) (by decide)

/-- Recognizer for calendar-prompt replies. -/
def Reply.isCalendarPrompt : Reply → Bool
  | .calendarPrompt _ => true
  | _ => false

/-- Concrete state for the C8 counterexample. -/
def c8x_st : BotState :=
  { db := { users := [⟨1, "@a", "A", some "PDCFRNA", "approved"⟩], shifts := [],
            nextShiftId := 1, now := 0 }
    pending := []
    nextMsgId := 100 }

/-- First album item for the C8 counterexample (the source reads no group
identifier, so the shared album id of the two uploads is not even part of the
message model). -/
def c8x_m1 : IncomingMsg :=
  { chat_id := 9, chat_private := true, message_id := 11,
    from_user := some ⟨1, some "a", "A"⟩, caption := "", file_id := some "p1" }

/-- Second album item for the C8 counterexample. -/
def c8x_m2 : IncomingMsg :=
  { chat_id := 9, chat_private := true, message_id := 12,
    from_user := some ⟨1, some "a", "A"⟩, caption := "", file_id := some "p2" }

/-- The single date tap of the C8 counterexample scenario. -/
def c8x_q : CallbackQuery :=
  { from_user := ⟨1, some "a", "A"⟩, chat_private := true, message_id := some 100,
    data := some "SETDATE|2025-12-10" }

theorem c8_counterexample :
    (runCollect c8x_st [Event.upload c8x_m1 none, Event.upload c8x_m2 none]).2.countP
        Reply.isCalendarPrompt = 2 ∧
    (runEvents c8x_st [Event.upload c8x_m1 none, Event.upload c8x_m2 none,
        Event.callback c8x_q]).db.shifts.length = 1 := by decide

/-- C8 (amended): the upload handler aggregates nothing — each media event
without a caption date independently stores one correlation entry and shows
its own calendar prompt (so N album items produce N prompts), and one date
tap finalizes exactly the one posting correlated to its calendar message:
one new row with the chosen date, the stored owner and the owner's approved
org, and one confirmation. -/
theorem c8_per_event_handling (st st2 : BotState) (m : IncomingMsg)
    (u : TgUser) (q : CallbackQuery) (mid oid : Int) (entry : PendingData)
    (d org : String) (rest : List String)
    (hpriv : m.chat_private = true)
    (hfrom : m.from_user = some u)
    (hgate : require_approved_check st.db true (some u) = .ok)
    (husr : strFalsy q.from_user.username = false)
    (hsplit : splitSep '|' ((q.data).getD "") = "SETDATE" :: d :: rest)
    (hmid : q.message_id = some mid)
    (hlook : pendingLookup st2.pending mid = some entry)
    (hoid : entry.owner_id = some oid) (h0 : oid ≠ 0)
    (hopen : has_open_on_date st2.db oid d = false)
    (horg : get_approved_org st2.db oid = some org) (horg0 : org ≠ "")
    (hvd : isValidDateIso d = true) :
    photo_or_doc_image_handler st m none =
      .done { st with
                pending := pendingInsert st.pending st.nextMsgId (pendingEntryOf m)
                nextMsgId := st.nextMsgId + 1 }
        [.calendarPrompt st.nextMsgId] ∧
    ∃ row : ShiftRow,
      button_handler st2 q =
        .done { st2 with
                  pending := pendingErase st2.pending mid
                  db := { st2.db with
                            shifts := st2.db.shifts ++ [row]
                            nextShiftId := st2.db.nextShiftId + 1 } }
          [.confirmSaved d] ∧
      row.date_iso = d ∧ row.user_id = some oid ∧ row.org = some org := by
  constructor
  · unfold photo_or_doc_image_handler
    rw [hpriv, if_pos rfl, hfrom, hgate]
  · have hsf : strFalsy (some org) = false := by simp [strFalsy, horg0]
    have horg2 : setdate_owner_org st2.db entry.owner_id = some org := by
      unfold setdate_owner_org
      rw [hoid]
      dsimp only
      rw [if_neg h0, horg]
    have hdup : setdate_dup st2.db entry.owner_id d = false := by
      unfold setdate_dup
      rw [hoid]
      dsimp only
      rw [if_neg h0, hopen]
    have hres : resolve_org st2.db entry.owner_id (some org) = some org := by
      unfold resolve_org
      rw [hsf]
      simp
    have hsave : save_shift_raw st2.db entry.src_chat_id entry.src_msg_id
        entry.owner_id (some entry.owner_username) entry.caption d (some org)
        entry.file_id =
        ((st2.db.nextShiftId : Int),
         { st2.db with
             shifts := st2.db.shifts ++
               [mkShiftRow st2.db entry.src_chat_id entry.src_msg_id entry.owner_id
                 (some entry.owner_username) entry.caption d (some org) entry.file_id]
             nextShiftId := st2.db.nextShiftId + 1 }) := by
      unfold save_shift_raw
      dsimp only
      rw [hres, hsf]
      simp
    refine ⟨mkShiftRow st2.db entry.src_chat_id entry.src_msg_id entry.owner_id
      (some entry.owner_username) entry.caption d (some org) entry.file_id,
      ?_, rfl, ?_, rfl⟩
    · unfold button_handler
      rw [require_username_ok q.from_user husr, hsplit]
      dsimp only
      rw [if_neg (by decide), if_pos rfl, hmid]
      rw [pendingPop_of_lookup st2.pending mid entry hlook]
      dsimp only
      rw [hdup]
      rw [if_neg (by simp)]
      rw [horg2]
      rw [if_neg (by rw [hsf]; simp)]
      rw [hsave]
      dsimp only
      rw [if_neg (by omega), hvd, if_pos rfl]
    · rw [show (mkShiftRow st2.db entry.src_chat_id entry.src_msg_id entry.owner_id
        (some entry.owner_username) entry.caption d (some org)
        entry.file_id).user_id = entry.owner_id from rfl, hoid]

/-- Concrete mid-scenario state for the C8 witness: both album items already
prompted, both correlation entries live. -/
def c8w_st2 : BotState :=
  { db := { users := [⟨1, "@a", "A", some "PDCFRNA", "approved"⟩], shifts := [],
            nextShiftId := 1, now := 0 }
    pending := [(100, pendingEntryOf c8x_m1), (101, pendingEntryOf c8x_m2)]
    nextMsgId := 102 }

theorem c8_per_event_handling_witness :
    photo_or_doc_image_handler c8x_st c8x_m1 none =
      .done { c8x_st with
                pending := pendingInsert c8x_st.pending c8x_st.nextMsgId
                  (pendingEntryOf c8x_m1)
                nextMsgId := c8x_st.nextMsgId + 1 }
        [.calendarPrompt c8x_st.nextMsgId] ∧
    ∃ row : ShiftRow,
      button_handler c8w_st2 c8x_q =
        .done { c8w_st2 with
                  pending := pendingErase c8w_st2.pending 100
                  db := { c8w_st2.db with
                            shifts := c8w_st2.db.shifts ++ [row]
                            nextShiftId := c8w_st2.db.nextShiftId + 1 } }
          [.confirmSaved "2025-12-10"] ∧
      row.date_iso = "2025-12-10" ∧ row.user_id = some 1 ∧
      row.org = some "PDCFRNA" :=
  c8_per_event_handling c8x_st c8w_st2 c8x_m1 ⟨1, some "a", "A"⟩ c8x_q 100 1
    (pendingEntryOf c8x_m1) "2025-12-10" "PDCFRNA" []
    (by decide) (by decide) (by decide) (by decide) (by decide) (by decide)
    (by decide) (by decide) (by decide) (by decide) (by decide) (by decide)
    (by decide)

/-- C9: a bare `SETDATE` callback (a known action with its argument missing)
makes `button_handler` evaluate `parts[1]` and raise `IndexError` instead of
returning; the state is untouched because the raise precedes any write. -/
theorem c9_bare_setdate_raises (st : BotState) (q : CallbackQuery)
    (husr : strFalsy q.from_user.username = false)
    (hdata : q.data = some "SETDATE") :
    button_handler st q = .raised st := by
  unfold button_handler
  rw [require_username_ok q.from_user husr, hdata]
  rw [show splitSep '|' ((some "SETDATE").getD "") = ["SETDATE"] from by decide]
  dsimp only
  rw [if_neg (by decide), if_pos rfl]

/-- Concrete state for the C9 witness. -/
def c9w_st : BotState :=
  { db := { users := [⟨1, "@a", "A", some "PDCFRNA", "approved"⟩], shifts := [],
            nextShiftId := 1, now := 0 }
    pending := []
    nextMsgId := 90 }

/-- The bare SETDATE tap of the C9 witness. -/
def c9w_q : CallbackQuery :=
  { from_user := ⟨1, some "a", "A"⟩, chat_private := true, message_id := some 90,
    data := some "SETDATE" }

theorem c9_bare_setdate_raises_witness :
    button_handler c9w_st c9w_q = .raised c9w_st :=
  c9_bare_setdate_raises c9w_st c9w_q (by decide) (by decide)

end ShiftBot
